import Mathlib

/-!
Verification of the tailscale-exits infrastructure reconciliation engine.

This file gives a shallow embedding, in Lean, of the state model, discovery,
creation (with its IAM-propagation retry), deletion, the setup/teardown
orchestrators, and the per-region instance/VPC lifecycle of the Go sources,
and proves the specified properties about them.  Provider calls are modelled
by explicit result oracles (`Except String _` values supplied as arguments),
so every definition is an executable function of the observable inputs.
-/

/-! ## Fixed resource names and tags (cmd/tse/infrastructure, discovery file) -/

def FunctionName : String := "tailscale-exits"

def RoleName : String := "tailscale-exits-lambda-role"

def InlinePolicyName : String := "tailscale-exits-lambda-ec2-policy"

def LogGroupName : String := "/aws/lambda/tailscale-exits"

def TagManagedBy : String := "tse"

def ManagedPolicyARN : String := "arn:aws:iam::aws:policy/service-role/AWSLambdaBasicExecutionRole"

/-! ## State model (cmd/tse/infrastructure state file) -/

/-- Resource represents an AWS resource with basic identifying information
(Go struct `Resource`); tags are the Go map modelled as an association list. -/
structure Resource where
  name : String
  arn : String
  tags : List (String × String)
deriving DecidableEq, Repr

/-- The policy sub-record of `InfrastructureState` (anonymous struct in Go). -/
structure PoliciesState where
  managed : Bool
  inlineName : String
  inlineDocument : String
deriving DecidableEq, Repr

/-- InfrastructureState represents the discovered state of TSE AWS
infrastructure (Go struct `InfrastructureState`). -/
structure InfrastructureState where
  logGroup : Option Resource
  iamRole : Option Resource
  lambda : Option Resource
  functionURL : String
  policies : PoliciesState
deriving DecidableEq, Repr

/-- The Go zero value `&InfrastructureState{}` that discovery starts from. -/
def emptyState : InfrastructureState :=
  { logGroup := none, iamRole := none, lambda := none, functionURL := ""
  , policies := { managed := false, inlineName := "", inlineDocument := "" } }

/-- Go map lookup `tags[k]`: a missing key yields the zero value `""`. -/
def tagGet (tags : List (String × String)) (k : String) : String :=
  (tags.lookup k).getD ""

/-- `(s *InfrastructureState) Exists`: at least one resource was found. -/
def InfrastructureState.Exists (s : InfrastructureState) : Bool :=
  s.logGroup.isSome || s.iamRole.isSome || s.lambda.isSome

/-- `(s *InfrastructureState) IsComplete`: all required infrastructure deployed. -/
def InfrastructureState.IsComplete (s : InfrastructureState) : Bool :=
  s.logGroup.isSome && s.iamRole.isSome && s.lambda.isSome &&
    s.functionURL != "" && s.policies.managed && s.policies.inlineName != ""

/-- `(s *InfrastructureState) Missing`: the list of resources not yet deployed,
in the fixed order of the Go appends. -/
def InfrastructureState.Missing (s : InfrastructureState) : List String :=
  (if s.logGroup.isNone then ["CloudWatch Log Group"] else []) ++
  (if s.iamRole.isNone then ["IAM Role"] else []) ++
  (if !s.policies.managed then ["Managed Policy Attachment"] else []) ++
  (if s.policies.inlineName = "" then ["Inline Policy"] else []) ++
  (if s.lambda.isNone then ["Lambda Function"] else []) ++
  (if s.functionURL = "" then ["Function URL"] else [])

/-- The canonical full label list, in the order the spec fixes. -/
def canonicalMissingLabels : List String :=
  ["CloudWatch Log Group", "IAM Role", "Managed Policy Attachment",
   "Inline Policy", "Lambda Function", "Function URL"]

/-- Modelled from the spec words for comparison with the source `Missing`:
the canonical ordered pairs (is-absent flag, label) for the six fields. -/
def specMissingPairs (s : InfrastructureState) : List (Bool × String) :=
  [(s.logGroup.isNone, "CloudWatch Log Group"),
   (s.iamRole.isNone, "IAM Role"),
   (!s.policies.managed, "Managed Policy Attachment"),
   (s.policies.inlineName = "", "Inline Policy"),
   (s.lambda.isNone, "Lambda Function"),
   (s.functionURL = "", "Function URL")]

/-- Modelled from the spec words: one label per absent field, canonical order. -/
def specMissingLabels (s : InfrastructureState) : List String :=
  (specMissingPairs s).filterMap (fun p => if p.1 then some p.2 else none)

/-! ## Legacy detection (cmd/tse/infrastructure/teardown.go) -/

/-- Whether a resource carries the ownership tag `ManagedBy=tse`
(the per-resource check inside `detectLegacyResources`). -/
def resourceTagged (r : Resource) : Bool :=
  tagGet r.tags "ManagedBy" = TagManagedBy

/-- `detectLegacyResources`: resources exist but ALL are missing the
`ManagedBy=tse` tag. -/
def detectLegacyResources (s : InfrastructureState) : Bool :=
  let hasResources :=
    s.logGroup.isSome || s.iamRole.isSome || s.lambda.isSome
  let hasTaggedResource :=
    (match s.logGroup with | some r => resourceTagged r | none => false) ||
    (match s.iamRole with | some r => resourceTagged r | none => false) ||
    (match s.lambda with | some r => resourceTagged r | none => false)
  hasResources && !hasTaggedResource

/-! ## IAM-propagation retry (lambda creation file + ui/spinner.go) -/

/-- Boolean leading-match test on character lists (used to model
`strings.Contains`). -/
def listStartsWith : List Char → List Char → Bool
  | [], _ => true
  | _ :: _, [] => false
  | a :: as, b :: bs => a == b && listStartsWith as bs

/-- Boolean substring membership on character lists. -/
def listContainsSub (needle : List Char) : List Char → Bool
  | [] => needle.isEmpty
  | c :: rest => listStartsWith needle (c :: rest) || listContainsSub needle rest

/-- Model of Go `strings.Contains s sub`. -/
def strContains (s sub : String) : Bool :=
  listContainsSub sub.data s.data

/-- `isIAMPropagationError`: a Go error is modelled as `Option String`
(`none` is the nil error, `some msg` an error whose `Error()` is `msg`).
The Go function returns false on nil and otherwise matches the two
substrings of the IAM eventual-consistency signature. -/
def isIAMPropagationError : Option String → Bool
  | none => false
  | some errMsg =>
      strContains errMsg "InvalidParameterValueException" &&
      strContains errMsg "cannot be assumed"

/-- Outcome of `createLambdaFunctionWithRetry`. -/
inductive RetryOutcome where
  | ok (arn : String)
  | fatal (msg : String)
  | timeout
deriving DecidableEq, Repr

/-- `WithRotatingMessages` times out after 2 minutes. -/
def retryTimeoutSeconds : Nat := 120

/-- `WithRotatingMessages` re-invokes the check on a 1-second ticker. -/
def retryIntervalSeconds : Nat := 1

/-- Number of 1-second checks that fit before the 2-minute timeout fires. -/
def maxRetryChecks : Nat := retryTimeoutSeconds / retryIntervalSeconds

/-- The retry loop run by `WithRotatingMessages` around the create call:
attempt `results k`, `results (k+1)`, ... once per ticker second; a success
or a non-propagation error ends the loop, and exhausting the fuel is the
2-minute timeout.  `results n` is the outcome of the (n+1)-th call to
`createLambdaFunction` (`.ok arn` or `.error msg`). -/
def retryFromTick (results : Nat → Except String String) : Nat → Nat → RetryOutcome
  | 0, _ => .timeout
  | fuel + 1, k =>
      match results k with
      | .ok arn => .ok arn
      | .error e =>
          if isIAMPropagationError (some e) then retryFromTick results fuel (k + 1)
          else .fatal e

/-- `createLambdaFunctionWithRetry`: try once immediately; a non-propagation
error is returned as fatal without retrying; a propagation error enters the
bounded 1-second retry loop of `WithRotatingMessages`. -/
def createLambdaFunctionWithRetry (results : Nat → Except String String) : RetryOutcome :=
  match results 0 with
  | .ok arn => .ok arn
  | .error e =>
      if isIAMPropagationError (some e) then retryFromTick results maxRetryChecks 1
      else .fatal e

/-! ## Teardown (cmd/tse/infrastructure/teardown.go) -/

/-- One deletion call, carrying the provider arguments the Go code passes. -/
inductive DeleteOp where
  | functionURL (functionName : String)
  | lambdaFunction (functionName : String)
  | inlinePolicy (roleName policyName : String)
  | managedPolicyDetach (roleName policyARN : String)
  | iamRole (roleName : String)
  | logGroup (name : String)
deriving DecidableEq, Repr

/-- Position of each deletion kind in the reverse-dependency order. -/
def opRank : DeleteOp → Nat
  | .functionURL _ => 0
  | .lambdaFunction _ => 1
  | .inlinePolicy _ _ => 2
  | .managedPolicyDetach _ _ => 3
  | .iamRole _ => 4
  | .logGroup _ => 5

/-- The guarded deletion sequence of `Teardown` step 5: each block is emitted
exactly under the Go guard, in source order. -/
def teardownAttempts (s : InfrastructureState) : List DeleteOp :=
  (match s.lambda with
   | some lam => if s.functionURL = "" then [] else [DeleteOp.functionURL lam.name]
   | none => []) ++
  (match s.lambda with
   | some lam => [DeleteOp.lambdaFunction lam.name]
   | none => []) ++
  (match s.iamRole with
   | some role =>
       if s.policies.inlineName = "" then []
       else [DeleteOp.inlinePolicy role.name s.policies.inlineName]
   | none => []) ++
  (match s.iamRole with
   | some role =>
       if s.policies.managed then [DeleteOp.managedPolicyDetach role.name ManagedPolicyARN]
       else []
   | none => []) ++
  (match s.iamRole with
   | some role => [DeleteOp.iamRole role.name]
   | none => []) ++
  (match s.logGroup with
   | some lg => [DeleteOp.logGroup lg.name]
   | none => [])

/-- Result trace of one `Teardown` run: the returned error, the deletion
calls issued (in order), and those that failed (each only warned about). -/
structure TeardownTrace where
  result : Except String Unit
  attempts : List DeleteOp
  warnings : List DeleteOp
deriving Repr

/-- `Teardown`: discover, return early if nothing exists, create clients,
then issue the guarded deletions in order.  `execDelete` is the oracle for
each deletion call (true = success); a failed deletion is only recorded as
a warning and never stops the sequence, exactly as in the Go code where
each error is printed and execution falls through to the next block. -/
def Teardown (discoverResult : Except String InfrastructureState)
    (clientsResult : Except String Unit) (execDelete : DeleteOp → Bool) : TeardownTrace :=
  match discoverResult with
  | .error e => ⟨.error ("failed to discover infrastructure: " ++ e), [], []⟩
  | .ok state =>
      if !state.Exists then ⟨.ok (), [], []⟩
      else
        match clientsResult with
        | .error e => ⟨.error ("failed to create AWS clients: " ++ e), [], []⟩
        | .ok _ =>
            let attempts := teardownAttempts state
            ⟨.ok (), attempts, attempts.filter (fun op => !execDelete op)⟩

/-! ## Teardown confirmation gate (cmd/tse/teardown.go) -/

/-- Model of Go `unicode.IsSpace` (the characters `strings.TrimSpace` strips). -/
def goIsSpace (c : Char) : Bool :=
  [9, 10, 11, 12, 13, 32, 0x85, 0xA0, 0x1680,
   0x2000, 0x2001, 0x2002, 0x2003, 0x2004, 0x2005, 0x2006, 0x2007,
   0x2008, 0x2009, 0x200A, 0x2028, 0x2029, 0x202F, 0x205F, 0x3000].contains c.toNat

/-- Model of Go `strings.TrimSpace`. -/
def goTrimSpace (s : String) : String :=
  ⟨((s.data.dropWhile goIsSpace).reverse.dropWhile goIsSpace).reverse⟩

/-- What `runTeardown` decides after reading the confirmation line. -/
inductive TeardownDecision where
  | cancelled
  | proceed
deriving DecidableEq, Repr

/-- The confirmation gate of `runTeardown`: `input` is the result of reading
a line from stdin; a read error aborts, any trimmed response other than the
exact token `DELETE` cancels with nothing deleted, and only the exact token
reaches `infrastructure.Teardown`. -/
def runTeardownGate (input : Except String String) : Except String TeardownDecision :=
  match input with
  | .error e => .error ("failed to read confirmation: " ++ e)
  | .ok response =>
      let response := goTrimSpace response
      if response != "DELETE" then .ok .cancelled
      else .ok .proceed

/-! ## Discovery (cmd/tse/infrastructure discovery file) -/

/-- Results of the IAM provider calls `discoverIAMResources` makes, in order:
`GetRole` (role name and ARN), `ListRoleTags`, `ListAttachedRolePolicies`
(attached policy ARNs), `GetRolePolicy` (inline policy name and document). -/
structure IAMApi where
  getRole : Except String (String × String)
  listRoleTags : Except String (List (String × String))
  listAttachedRolePolicies : Except String (List String)
  getRolePolicy : Except String (String × String)

/-- Results of the Lambda provider calls `discoverLambdaResources` makes:
`GetFunction` (function name and ARN), `ListTags`, `GetFunctionUrlConfig`. -/
structure LambdaApi where
  getFunction : Except String (String × String)
  listTags : Except String (List (String × String))
  getFunctionUrlConfig : Except String String

/-- One log group as returned by `DescribeLogGroups`. -/
structure LogGroupInfo where
  logGroupName : String
  arn : Option String
deriving DecidableEq, Repr

/-- Results of the CloudWatch Logs calls `discoverLogsResources` makes. -/
structure LogsApi where
  describeLogGroups : Except String (List LogGroupInfo)
  listTagsForResource : Except String (List (String × String))

/-- `discoverIAMResources`: any `GetRole` error is taken as "role doesn't
exist" and is fine for discovery; errors from the two listing calls
propagate; a `GetRolePolicy` error is ignored (no inline policy). -/
def discoverIAMResources (api : IAMApi) (state : InfrastructureState) :
    Except String InfrastructureState :=
  match api.getRole with
  | .error _ => .ok state
  | .ok (roleName, roleArn) =>
      match api.listRoleTags with
      | .error e => .error ("failed to list role tags: " ++ e)
      | .ok tags =>
          let state := { state with iamRole := some ⟨roleName, roleArn, tags⟩ }
          match api.listAttachedRolePolicies with
          | .error e => .error ("failed to list attached policies: " ++ e)
          | .ok policyARNs =>
              let state :=
                if policyARNs.contains ManagedPolicyARN then
                  { state with policies := { state.policies with managed := true } }
                else state
              match api.getRolePolicy with
              | .ok (policyName, policyDocument) =>
                  .ok { state with policies :=
                          { state.policies with
                              inlineName := policyName, inlineDocument := policyDocument } }
              | .error _ => .ok state

/-- `discoverLambdaResources`: any `GetFunction` error is taken as "function
doesn't exist"; a `ListTags` error propagates; a `GetFunctionUrlConfig`
error is ignored (no URL). -/
def discoverLambdaResources (api : LambdaApi) (state : InfrastructureState) :
    Except String InfrastructureState :=
  match api.getFunction with
  | .error _ => .ok state
  | .ok (functionName, functionArn) =>
      match api.listTags with
      | .error e => .error ("failed to list function tags: " ++ e)
      | .ok tags =>
          let state := { state with lambda := some ⟨functionName, functionArn, tags⟩ }
          match api.getFunctionUrlConfig with
          | .ok url => .ok { state with functionURL := url }
          | .error _ => .ok state

/-- `discoverLogsResources`: a `DescribeLogGroups` error propagates; the
first returned group is used only on an exact name match; tag-fetch errors
are ignored (empty tags). -/
def discoverLogsResources (api : LogsApi) (state : InfrastructureState) :
    Except String InfrastructureState :=
  match api.describeLogGroups with
  | .error e => .error ("failed to describe log groups: " ++ e)
  | .ok groups =>
      match groups with
      | [] => .ok state
      | g :: _ =>
          if g.logGroupName = LogGroupName then
            let tags :=
              match g.arn with
              | some a =>
                  if a != "" then
                    match api.listTagsForResource with
                    | .ok t => t
                    | .error _ => []
                  else []
              | none => []
            let arn := g.arn.getD ""
            .ok { state with logGroup := some ⟨g.logGroupName, arn, tags⟩ }
          else .ok state

/-- All provider results one discovery run consumes. -/
structure DiscoveryApi where
  newClients : Except String Unit
  iam : IAMApi
  lam : LambdaApi
  logs : LogsApi

/-- `AutodiscoverInfrastructure`: client creation, then the three discovery
passes in order, each wrapping its error with the operation name. -/
def AutodiscoverInfrastructure (api : DiscoveryApi) : Except String InfrastructureState :=
  match api.newClients with
  | .error e => .error e
  | .ok _ =>
      match discoverIAMResources api.iam emptyState with
      | .error e => .error ("IAM discovery failed: " ++ e)
      | .ok s1 =>
          match discoverLambdaResources api.lam s1 with
          | .error e => .error ("Lambda discovery failed: " ++ e)
          | .ok s2 =>
              match discoverLogsResources api.logs s2 with
              | .error e => .error ("CloudWatch Logs discovery failed: " ++ e)
              | .ok s3 => .ok s3

/-! ## Per-region instance/VPC lifecycle (deployments aws service file) -/

/-- The fields of `sharedtypes.InstanceInfo` the lifecycle decisions read. -/
structure InstanceInfo where
  instanceID : String
  state : String
deriving DecidableEq, Repr

/-- The `StopInstances` selection test: terminate running, pending and
stopped instances. -/
def shouldTerminate (i : InstanceInfo) : Bool :=
  i.state = "running" || i.state = "pending" || i.state = "stopped"

/-- The instance IDs `StopInstances` collects for its terminate call. -/
def terminateIDs (instances : List InstanceInfo) : List String :=
  (instances.filter shouldTerminate).map (fun i => i.instanceID)

/-- `StopInstances`: list the tagged instances, return early with an empty
list (no terminate call) when nothing is listed or nothing matches, else
issue one `TerminateInstances` call for the matching IDs.  Returns the Go
return value and whether the terminate call was issued. -/
def StopInstances (listResult : Except String (List InstanceInfo))
    (terminateResult : Except String Unit) : Except String (List String) × Bool :=
  match listResult with
  | .error e => (.error e, false)
  | .ok instances =>
      if instances.isEmpty then (.ok [], false)
      else
        let instanceIDs := terminateIDs instances
        if instanceIDs.isEmpty then (.ok [], false)
        else
          match terminateResult with
          | .error e => (.error ("failed to terminate instances: " ++ e), true)
          | .ok _ => (.ok instanceIDs, true)

/-- The check that blocks VPC cleanup: an instance still running or pending. -/
def isBlockingInstance (i : InstanceInfo) : Bool :=
  i.state = "running" || i.state = "pending"

/-- `cleanupVPCInfrastructure`: re-list the tagged instances; return (with no
deletion) if any is running or pending; otherwise describe the
`Project`/`Type`-tagged VPCs and attempt to delete every one (per-VPC
failures are only logged).  Returns the Go error and the VPC IDs whose
deletion was attempted. -/
def cleanupVPCInfrastructure (listResult : Except String (List InstanceInfo))
    (vpcsResult : Except String (List String)) : Except String Unit × List String :=
  match listResult with
  | .error e => (.error e, [])
  | .ok instances =>
      if instances.any isBlockingInstance then (.ok (), [])
      else
        match vpcsResult with
        | .error e => (.error ("failed to find TSE VPCs: " ++ e), [])
        | .ok vpcs => (.ok (), vpcs)

/-! ## Setup orchestrator (cmd/tse/infrastructure setup file) -/

/-- `SetupResult`: final state, the auth token used, and whether it was
freshly generated. -/
structure SetupResult where
  state : InfrastructureState
  authToken : String
  wasGenerated : Bool
deriving DecidableEq, Repr

/-- One provider mutation the setup path can issue. -/
inductive CreateCall where
  | logGroup
  | iamRole
  | attachManagedPolicy
  | inlinePolicy
  | lambdaFunction
  | functionURL
deriving DecidableEq, Repr

/-- Everything one `Setup` run consumes: the two discovery snapshots, the
two environment variables, the value `generateAuthToken` would produce, and
the result of each provider call.  `lambdaAttempts n` is the outcome of the
(n+1)-th `createLambdaFunction` call inside the retry wrapper. -/
structure SetupWorld where
  discover1 : Except String InfrastructureState
  tseAuthTokenEnv : String
  tailscaleAuthKeyEnv : String
  generatedToken : String
  newClients : Except String Unit
  createLogGroupR : Except String Unit
  createIAMRoleR : Except String String
  attachManagedR : Except String Unit
  createInlineR : Except String Unit
  buildZipR : Except String Unit
  lambdaAttempts : Nat → Except String String
  createURLR : Except String String
  discover2 : Except String InfrastructureState

/-- Steps 8–10 of `Setup`: create the function URL if missing, then
re-discover and return the re-discovered state as ground truth. -/
def setupFinish (w : SetupWorld) (state : InfrastructureState) (tok : String)
    (gen : Bool) (calls : List CreateCall) : Except String SetupResult × List CreateCall :=
  let calls := calls ++ (if state.functionURL = "" then [CreateCall.functionURL] else [])
  let urlR : Except String String :=
    if state.functionURL = "" then w.createURLR else .ok state.functionURL
  match urlR with
  | .error e => (.error e, calls)
  | .ok _ =>
      match w.discover2 with
      | .error e => (.error ("failed to verify deployment: " ++ e), calls)
      | .ok finalState => (.ok ⟨finalState, tok, gen⟩, calls)

/-- Steps 4–7 of `Setup`: create each of log group, role, managed policy
attachment, inline policy and the Lambda function exactly when discovery
found it missing, failing fast on the first error, recording every provider
mutation issued. -/
def setupCreate (w : SetupWorld) (state : InfrastructureState) (tok : String)
    (gen : Bool) : Except String SetupResult × List CreateCall :=
  let calls1 : List CreateCall := if state.logGroup.isNone then [CreateCall.logGroup] else []
  let r1 : Except String Unit := if state.logGroup.isNone then w.createLogGroupR else .ok ()
  match r1 with
  | .error e => (.error e, calls1)
  | .ok _ =>
      let calls2 := calls1 ++ (if state.iamRole.isNone then [CreateCall.iamRole] else [])
      let roleR : Except String String :=
        match state.iamRole with
        | none => w.createIAMRoleR
        | some r => .ok r.arn
      match roleR with
      | .error e => (.error e, calls2)
      | .ok _roleARN =>
          let calls3 := calls2 ++
            (if !state.policies.managed then [CreateCall.attachManagedPolicy] else [])
          let r3 : Except String Unit :=
            if !state.policies.managed then w.attachManagedR else .ok ()
          match r3 with
          | .error e => (.error e, calls3)
          | .ok _ =>
              let calls4 := calls3 ++
                (if state.policies.inlineName = "" then [CreateCall.inlinePolicy] else [])
              let r4 : Except String Unit :=
                if state.policies.inlineName = "" then w.createInlineR else .ok ()
              match r4 with
              | .error e => (.error e, calls4)
              | .ok _ =>
                  if state.lambda.isNone then
                    match w.buildZipR with
                    | .error e => (.error e, calls4)
                    | .ok _ =>
                        let calls5 := calls4 ++ [CreateCall.lambdaFunction]
                        match createLambdaFunctionWithRetry w.lambdaAttempts with
                        | .timeout => (.error "timeout waiting for propagation", calls5)
                        | .fatal e => (.error e, calls5)
                        | .ok _ => setupFinish w state tok gen calls5
                  else setupFinish w state tok gen calls4

/-- `Setup`: discover; if the snapshot is complete, return it at once with
the environment token and `wasGenerated = false` and no provider mutation;
otherwise require `TAILSCALE_AUTH_KEY`, reuse or generate the auth token,
create the AWS clients and run the creation steps.  The second component is
the trace of provider mutations issued. -/
def Setup (w : SetupWorld) : Except String SetupResult × List CreateCall :=
  match w.discover1 with
  | .error e => (.error ("failed to discover infrastructure: " ++ e), [])
  | .ok state =>
      if state.IsComplete then
        (.ok ⟨state, w.tseAuthTokenEnv, false⟩, [])
      else if w.tailscaleAuthKeyEnv = "" then
        (.error "TAILSCALE_AUTH_KEY environment variable not set", [])
      else
        let tok := if w.tseAuthTokenEnv = "" then w.generatedToken else w.tseAuthTokenEnv
        let gen := w.tseAuthTokenEnv = ""
        match w.newClients with
        | .error e => (.error e, [])
        | .ok _ => setupCreate w state tok gen

/-! ## Concrete demo inputs used by the witness theorems -/

/-- A state holding one untagged role and nothing else (legacy scenario). -/
def legacyDemoState : InfrastructureState :=
  { emptyState with iamRole := some ⟨"tailscale-exits-lambda-role", "arn-role", []⟩ }

/-- A state with a tagged role and an untagged function (owned scenario). -/
def taggedDemoState : InfrastructureState :=
  { emptyState with
      iamRole := some ⟨"tailscale-exits-lambda-role", "arn-role", [("ManagedBy", "tse")]⟩
    , lambda := some ⟨"tailscale-exits", "arn-fn", []⟩ }

/-- A state with an orphaned function URL (no function) and an inline policy
recorded without a role. -/
def orphanDemoState : InfrastructureState :=
  { emptyState with
      functionURL := "https://orphan.lambda-url.aws/"
    , policies := { managed := false, inlineName := "tailscale-exits-lambda-ec2-policy"
                  , inlineDocument := "" } }

/-- A create-call error message carrying the IAM propagation signature. -/
def iamPropagationDemoMsg : String :=
  "InvalidParameterValueException: The role defined for the function cannot be assumed by Lambda."

/-- A fully deployed state for the C3 witness. -/
def completeDemoState : InfrastructureState :=
  { logGroup := some ⟨"/aws/lambda/tailscale-exits", "arn-lg", [("ManagedBy", "tse")]⟩
  , iamRole := some ⟨"tailscale-exits-lambda-role", "arn-role", [("ManagedBy", "tse")]⟩
  , lambda := some ⟨"tailscale-exits", "arn-fn", [("ManagedBy", "tse")]⟩
  , functionURL := "https://demo.lambda-url.aws/"
  , policies := { managed := true, inlineName := "tailscale-exits-lambda-ec2-policy"
                , inlineDocument := "doc" } }

/-- A setup world whose first discovery returns the complete state. -/
def completeDemoWorld : SetupWorld :=
  { discover1 := .ok completeDemoState
  , tseAuthTokenEnv := "tok"
  , tailscaleAuthKeyEnv := ""
  , generatedToken := "gen"
  , newClients := .ok ()
  , createLogGroupR := .ok ()
  , createIAMRoleR := .ok "arn-role"
  , attachManagedR := .ok ()
  , createInlineR := .ok ()
  , buildZipR := .ok ()
  , lambdaAttempts := fun _ => .ok "arn-fn"
  , createURLR := .ok "https://demo.lambda-url.aws/"
  , discover2 := .ok completeDemoState }

/-- A permission-denied style provider error on the existence lookups. -/
def permissionDeniedMsg : String :=
  "AccessDenied: user is not authorized to perform this operation"

/-- A discovery run in which `GetRole` and `GetFunction` fail with
permission-denied errors rather than not-found. -/
def deniedDiscoveryApi : DiscoveryApi :=
  { newClients := .ok ()
  , iam := { getRole := .error permissionDeniedMsg
           , listRoleTags := .ok []
           , listAttachedRolePolicies := .ok []
           , getRolePolicy := .error "NoSuchEntity" }
  , lam := { getFunction := .error permissionDeniedMsg
           , listTags := .ok []
           , getFunctionUrlConfig := .error "NotFound" }
  , logs := { describeLogGroups := .ok []
            , listTagsForResource := .ok [] } }

/-- A discovery run whose role lookup succeeds but whose role-tag listing
fails. -/
def throttledDiscoveryApi : DiscoveryApi :=
  { deniedDiscoveryApi with
      iam := { deniedDiscoveryApi.iam with
                 getRole := .ok ("tailscale-exits-lambda-role", "arn-role")
               , listRoleTags := .error "throttled" } }

/-! ## Theorems -/

/-- C5: `Missing` lists exactly one label per absent field among the six, in
the fixed canonical order regardless of which are missing; an entirely empty
state yields exactly the 6 canonical labels and a complete state yields the
empty list. -/
theorem missing_labels_canonical (s : InfrastructureState) :
    s.Missing = specMissingLabels s
  ∧ s.Missing.length =
      ((if s.logGroup.isNone then 1 else 0) + (if s.iamRole.isNone then 1 else 0) +
       (if !s.policies.managed then 1 else 0) +
       (if s.policies.inlineName = "" then 1 else 0) +
       (if s.lambda.isNone then 1 else 0) + (if s.functionURL = "" then 1 else 0))
  ∧ emptyState.Missing = canonicalMissingLabels
  ∧ (s.IsComplete = true ↔ s.Missing = []) := by
  obtain ⟨lg, role, lam, url, mng, inl, doc⟩ := s
  cases lg <;> cases role <;> cases lam <;> cases mng <;>
    by_cases h2 : inl = "" <;> by_cases h3 : url = "" <;>
      simp_all [InfrastructureState.Missing, specMissingLabels, specMissingPairs,
        InfrastructureState.IsComplete, emptyState, canonicalMissingLabels]

/-- C6: legacy detection is true iff at least one of log group, role, Lambda
is present and none of the present ones carries `ManagedBy=tse`; it is false
with no resource present and false as soon as one present resource carries
the tag, regardless of the others. -/
theorem detect_legacy_characterization (s : InfrastructureState) :
    (detectLegacyResources s = true ↔
      ((s.logGroup.isSome ∨ s.iamRole.isSome ∨ s.lambda.isSome) ∧
       (∀ r, s.logGroup = some r → resourceTagged r = false) ∧
       (∀ r, s.iamRole = some r → resourceTagged r = false) ∧
       (∀ r, s.lambda = some r → resourceTagged r = false)))
  ∧ (s.logGroup = none → s.iamRole = none → s.lambda = none →
       detectLegacyResources s = false)
  ∧ (∀ r, (s.logGroup = some r ∨ s.iamRole = some r ∨ s.lambda = some r) →
       resourceTagged r = true → detectLegacyResources s = false) := by
  obtain ⟨lg, role, lam, url, pol⟩ := s
  cases lg <;> cases role <;> cases lam <;> simp_all [detectLegacyResources]
  all_goals (first | tauto | aesop)

/-- Witness for C6 at the two demo states: one untagged role is legacy; a
tagged role plus untagged function is owned. -/
theorem detect_legacy_characterization_witness :
    detectLegacyResources legacyDemoState = true ∧
    detectLegacyResources taggedDemoState = false := by
  constructor
  · exact (detect_legacy_characterization legacyDemoState).1.mpr
      ⟨Or.inr (Or.inl (by decide)),
       fun r h => by simp [legacyDemoState, emptyState] at h,
       fun r h => by
         simp only [legacyDemoState, emptyState, Option.some.injEq] at h
         subst h; decide,
       fun r h => by simp [legacyDemoState, emptyState] at h⟩
  · exact (detect_legacy_characterization taggedDemoState).2.2
      ⟨"tailscale-exits-lambda-role", "arn-role", [("ManagedBy", "tse")]⟩
      (Or.inr (Or.inl (by decide))) (by decide)

/-- C7: the teardown entrypoint reaches the deletion phase iff the line read
from the caller, after trimming surrounding whitespace, is exactly `DELETE`;
any other input cancels the teardown and a read error aborts it. -/
theorem teardown_confirmation_gate (input : Except String String) :
    (runTeardownGate input = .ok .proceed ↔
       ∃ r, input = .ok r ∧ goTrimSpace r = "DELETE")
  ∧ (∀ r, input = .ok r → goTrimSpace r ≠ "DELETE" →
       runTeardownGate input = .ok .cancelled)
  ∧ (∀ e, input = .error e →
       runTeardownGate input = .error ("failed to read confirmation: " ++ e)) := by
  cases input with
  | error e => simp [runTeardownGate]
  | ok r =>
      by_cases h : goTrimSpace r = "DELETE" <;>
        simp [runTeardownGate, h, bne_iff_ne]

/-- Witness for C7: a padded `DELETE` proceeds; `delete` and a read error
do not. -/
theorem teardown_confirmation_gate_witness :
    runTeardownGate (.ok "  DELETE\n") = .ok .proceed ∧
    runTeardownGate (.ok "delete") = .ok .cancelled ∧
    runTeardownGate (.error "EOF") = .error "failed to read confirmation: EOF" := by
  refine ⟨?_, ?_, ?_⟩
  · exact (teardown_confirmation_gate (.ok "  DELETE\n")).1.mpr
      ⟨"  DELETE\n", rfl, by decide⟩
  · exact (teardown_confirmation_gate (.ok "delete")).2.1 "delete" rfl (by decide)
  · exact (teardown_confirmation_gate (.error "EOF")).2.2 "EOF" rfl

/-- If nothing was discovered, there is nothing to attempt. -/
theorem teardownAttempts_nil_of_not_exists (s : InfrastructureState)
    (h : s.Exists = false) : teardownAttempts s = [] := by
  obtain ⟨lg, role, lam, url, pol⟩ := s
  cases lg <;> cases role <;> cases lam <;>
    simp_all [InfrastructureState.Exists, teardownAttempts]

/-- A `Teardown` run over a successful discovery and client creation always
returns nil and attempts exactly the guarded sequence; failures only land in
the warnings. -/
theorem Teardown_run_eq (s : InfrastructureState) (f : DeleteOp → Bool) :
    Teardown (.ok s) (.ok ()) f =
      ⟨.ok (), teardownAttempts s, (teardownAttempts s).filter (fun op => !f op)⟩ := by
  by_cases h : s.Exists <;>
    simp [Teardown, h, teardownAttempts_nil_of_not_exists]

/-- C2: teardown issues deletions in exactly the reverse dependency order
function URL, Lambda, inline policy, managed-policy detachment, role, log
group, skipping steps whose resources are absent; the set and order of
attempted deletions do not depend on which deletions fail (failures never
abort the sequence), and when the role is present each present policy's
removal is attempted before the role deletion. -/
theorem teardown_order_and_independence (s : InfrastructureState)
    (f f' : DeleteOp → Bool) :
    ((Teardown (.ok s) (.ok ()) f).attempts = teardownAttempts s)
  ∧ ((Teardown (.ok s) (.ok ()) f).result = .ok ())
  ∧ ((Teardown (.ok s) (.ok ()) f).attempts = (Teardown (.ok s) (.ok ()) f').attempts)
  ∧ List.Pairwise (fun a b => opRank a < opRank b) (teardownAttempts s)
  ∧ (s.logGroup = none → ∀ n, DeleteOp.logGroup n ∉ teardownAttempts s)
  ∧ (s.lambda = none → ∀ n, DeleteOp.lambdaFunction n ∉ teardownAttempts s)
  ∧ (s.functionURL = "" → ∀ n, DeleteOp.functionURL n ∉ teardownAttempts s)
  ∧ (s.iamRole = none → ∀ n, DeleteOp.iamRole n ∉ teardownAttempts s)
  ∧ (s.policies.inlineName = "" → ∀ a b, DeleteOp.inlinePolicy a b ∉ teardownAttempts s)
  ∧ (s.policies.managed = false →
       ∀ a b, DeleteOp.managedPolicyDetach a b ∉ teardownAttempts s)
  ∧ (∀ r, s.iamRole = some r → s.policies.inlineName ≠ "" →
       DeleteOp.inlinePolicy r.name s.policies.inlineName ∈ teardownAttempts s)
  ∧ (∀ r, s.iamRole = some r → s.policies.managed = true →
       DeleteOp.managedPolicyDetach r.name ManagedPolicyARN ∈ teardownAttempts s)
  ∧ (∀ r, s.iamRole = some r → DeleteOp.iamRole r.name ∈ teardownAttempts s) := by
  refine ⟨by rw [Teardown_run_eq], by rw [Teardown_run_eq],
    by rw [Teardown_run_eq, Teardown_run_eq], ?_, ?_, ?_, ?_, ?_, ?_, ?_, ?_, ?_, ?_⟩
  all_goals
    obtain ⟨lg, role, lam, url, mng, inl, doc⟩ := s
  all_goals
    cases lg <;> cases role <;> cases lam <;> cases mng <;>
      by_cases h2 : inl = "" <;> by_cases h3 : url = "" <;>
        simp_all [teardownAttempts, opRank]

/-- Witness for C2 at a state holding only an IAM role: its deletion is
attempted and no Lambda deletion is attempted. -/
theorem teardown_order_and_independence_witness :
    DeleteOp.iamRole "tailscale-exits-lambda-role" ∈ teardownAttempts legacyDemoState ∧
    (∀ n, DeleteOp.lambdaFunction n ∉ teardownAttempts legacyDemoState) := by
  obtain ⟨-, -, -, -, -, h6, -, -, -, -, -, -, h13⟩ :=
    teardown_order_and_independence legacyDemoState (fun _ => true) (fun _ => false)
  exact ⟨h13 ⟨"tailscale-exits-lambda-role", "arn-role", []⟩ rfl, h6 rfl⟩

/-- C9: every deletion step is guarded on the presence of the parent
resource it references: a function-URL deletion is issued exactly when both
the URL and the function were discovered (and names the discovered
function), and the inline-policy deletion and managed-policy detachment are
issued exactly when the role was discovered (and name it); an orphaned URL
without a function, or policies without a role, produce no deletion call. -/
theorem teardown_guards_absent_parents (s : InfrastructureState) :
    (∀ n, DeleteOp.functionURL n ∈ teardownAttempts s ↔
       ∃ lam, s.lambda = some lam ∧ n = lam.name ∧ s.functionURL ≠ "")
  ∧ (∀ a b, DeleteOp.inlinePolicy a b ∈ teardownAttempts s ↔
       ∃ role, s.iamRole = some role ∧ a = role.name ∧
         b = s.policies.inlineName ∧ s.policies.inlineName ≠ "")
  ∧ (∀ a b, DeleteOp.managedPolicyDetach a b ∈ teardownAttempts s ↔
       ∃ role, s.iamRole = some role ∧ a = role.name ∧
         b = ManagedPolicyARN ∧ s.policies.managed = true) := by
  refine ⟨?_, ?_, ?_⟩
  all_goals
    obtain ⟨lg, role, lam, url, mng, inl, doc⟩ := s
  all_goals
    cases lg <;> cases role <;> cases lam <;> cases mng <;>
      by_cases h2 : inl = "" <;> by_cases h3 : url = "" <;>
        simp_all [teardownAttempts]

/-- Witness for C9: a state with an orphaned function URL and a role-less
inline policy yields no function-URL and no inline-policy deletion. -/
theorem teardown_guards_absent_parents_witness :
    (∀ n, DeleteOp.functionURL n ∉ teardownAttempts orphanDemoState) ∧
    (∀ a b, DeleteOp.inlinePolicy a b ∉ teardownAttempts orphanDemoState) := by
  obtain ⟨h1, h2, -⟩ := teardown_guards_absent_parents orphanDemoState
  constructor
  · intro n hn
    obtain ⟨lam, hlam, -⟩ := (h1 n).mp hn
    simp [orphanDemoState, emptyState] at hlam
  · intro a b hab
    obtain ⟨role, hrole, -⟩ := (h2 a b).mp hab
    simp [orphanDemoState, emptyState] at hrole

/-- If every create attempt fails with a propagation error, the retry loop
can only exhaust its fuel: the 2-minute timeout. -/
theorem retryFromTick_timeout_of_all_propagation
    (results : Nat → Except String String)
    (h : ∀ n, ∃ e, results n = .error e ∧ isIAMPropagationError (some e) = true) :
    ∀ fuel k, retryFromTick results fuel k = .timeout := by
  intro fuel
  induction fuel with
  | zero => intro k; rfl
  | succ m ih =>
      intro k
      obtain ⟨e, he, hp⟩ := h k
      simp [retryFromTick, he, hp, ih]

/-- C1: `createLambdaFunctionWithRetry` retries if and only if the create
call's error message contains both `InvalidParameterValueException` and
`cannot be assumed`; the nil error is never classified as a propagation
error; any other error (first or during the loop) is returned at once as
fatal; a propagation error enters the 1-second-interval loop bounded by
the 2-minute timeout. -/
theorem create_retry_error_classification :
    isIAMPropagationError none = false
  ∧ (∀ msg, isIAMPropagationError (some msg) =
       (strContains msg "InvalidParameterValueException" &&
        strContains msg "cannot be assumed"))
  ∧ (∀ results arn, results 0 = .ok arn →
       createLambdaFunctionWithRetry results = .ok arn)
  ∧ (∀ results e, results 0 = .error e → isIAMPropagationError (some e) = false →
       createLambdaFunctionWithRetry results = .fatal e)
  ∧ (∀ results e, results 0 = .error e → isIAMPropagationError (some e) = true →
       createLambdaFunctionWithRetry results = retryFromTick results maxRetryChecks 1)
  ∧ (∀ results fuel k arn, results k = .ok arn →
       retryFromTick results (fuel + 1) k = .ok arn)
  ∧ (∀ results fuel k e, results k = .error e → isIAMPropagationError (some e) = false →
       retryFromTick results (fuel + 1) k = .fatal e)
  ∧ (∀ results fuel k e, results k = .error e → isIAMPropagationError (some e) = true →
       retryFromTick results (fuel + 1) k = retryFromTick results fuel (k + 1))
  ∧ (∀ results,
       (∀ n, ∃ e, results n = .error e ∧ isIAMPropagationError (some e) = true) →
       createLambdaFunctionWithRetry results = .timeout) := by
  refine ⟨rfl, fun msg => rfl, ?_, ?_, ?_, ?_, ?_, ?_, ?_⟩
  · intro results arn h
    simp [createLambdaFunctionWithRetry, h]
  · intro results e h hp
    simp [createLambdaFunctionWithRetry, h, hp]
  · intro results e h hp
    simp [createLambdaFunctionWithRetry, h, hp]
  · intro results fuel k arn h
    simp [retryFromTick, h]
  · intro results fuel k e h hp
    simp [retryFromTick, h, hp]
  · intro results fuel k e h hp
    simp [retryFromTick, h, hp]
  · intro results h
    obtain ⟨e, he, hp⟩ := h 0
    simp [createLambdaFunctionWithRetry, he, hp,
      retryFromTick_timeout_of_all_propagation results h]

/-- Witness for C1: a non-matching error is fatal on the first attempt,
and a run of nothing but propagation errors times out. -/
theorem create_retry_error_classification_witness :
    createLambdaFunctionWithRetry (fun _ => .error "AccessDenied") =
      .fatal "AccessDenied"
  ∧ createLambdaFunctionWithRetry (fun _ => .error iamPropagationDemoMsg) =
      .timeout := by
  obtain ⟨-, -, -, h4, -, -, -, -, h9⟩ := create_retry_error_classification
  exact ⟨h4 (fun _ => .error "AccessDenied") "AccessDenied" rfl (by decide),
    h9 (fun _ => .error iamPropagationDemoMsg)
      (fun n => ⟨iamPropagationDemoMsg, rfl, by decide⟩)⟩

/-- C3: when discovery returns a complete state, `Setup` returns immediately
with that state, `WasGenerated = false` and the `TSE_AUTH_TOKEN` taken from
the environment, and issues zero creation calls; a second run against an
already-complete deployment is therefore a no-op. -/
theorem setup_complete_state_noop (w : SetupWorld) (s : InfrastructureState)
    (h1 : w.discover1 = .ok s) (h2 : s.IsComplete = true) :
    Setup w = (.ok ⟨s, w.tseAuthTokenEnv, false⟩, []) := by
  simp [Setup, h1, h2]

/-- Witness for C3: on the complete demo world, `Setup` is a read-only
no-op even though `TAILSCALE_AUTH_KEY` is absent. -/
theorem setup_complete_state_noop_witness :
    completeDemoState.IsComplete = true ∧
    Setup completeDemoWorld =
      (.ok ⟨completeDemoState, completeDemoWorld.tseAuthTokenEnv, false⟩, []) :=
  ⟨by decide, setup_complete_state_noop completeDemoWorld completeDemoState rfl (by decide)⟩

/-- Counterexample to C4 as stated: a permission-denied error on the
`GetRole` and `GetFunction` discovery lookups does not abort discovery;
it is silently recorded as absence and discovery returns a normal empty
state. -/
theorem discovery_swallows_permission_denied :
    deniedDiscoveryApi.iam.getRole = .error permissionDeniedMsg ∧
    AutodiscoverInfrastructure deniedDiscoveryApi = .ok emptyState := ⟨rfl, rfl⟩

/-- C4 (amended): the existence lookups (`GetRole`, `GetFunction`,
`GetRolePolicy`, `GetFunctionUrlConfig`) treat any error — not only
not-found — as absence and continue, while errors from the secondary
lookups (`ListRoleTags`, `ListAttachedRolePolicies`, the function
`ListTags`, `DescribeLogGroups`) propagate and abort discovery. -/
theorem discovery_error_handling (api : DiscoveryApi) (st : InfrastructureState) :
    (∀ e, api.iam.getRole = .error e →
       discoverIAMResources api.iam st = .ok st)
  ∧ (∀ nm arn e, api.iam.getRole = .ok (nm, arn) → api.iam.listRoleTags = .error e →
       discoverIAMResources api.iam st = .error ("failed to list role tags: " ++ e))
  ∧ (∀ nm arn tags e, api.iam.getRole = .ok (nm, arn) →
       api.iam.listRoleTags = .ok tags →
       api.iam.listAttachedRolePolicies = .error e →
       discoverIAMResources api.iam st =
         .error ("failed to list attached policies: " ++ e))
  ∧ (∀ nm arn tags pols e, api.iam.getRole = .ok (nm, arn) →
       api.iam.listRoleTags = .ok tags →
       api.iam.listAttachedRolePolicies = .ok pols →
       api.iam.getRolePolicy = .error e →
       ∃ s', discoverIAMResources api.iam st = .ok s' ∧
         s'.policies.inlineName = st.policies.inlineName)
  ∧ (∀ e, api.lam.getFunction = .error e →
       discoverLambdaResources api.lam st = .ok st)
  ∧ (∀ nm arn e, api.lam.getFunction = .ok (nm, arn) → api.lam.listTags = .error e →
       discoverLambdaResources api.lam st =
         .error ("failed to list function tags: " ++ e))
  ∧ (∀ nm arn tags e, api.lam.getFunction = .ok (nm, arn) →
       api.lam.listTags = .ok tags →
       api.lam.getFunctionUrlConfig = .error e →
       ∃ s', discoverLambdaResources api.lam st = .ok s' ∧
         s'.functionURL = st.functionURL)
  ∧ (∀ e, api.logs.describeLogGroups = .error e →
       discoverLogsResources api.logs st =
         .error ("failed to describe log groups: " ++ e))
  ∧ (∀ e, api.newClients = .ok () →
       discoverIAMResources api.iam emptyState = .error e →
       AutodiscoverInfrastructure api = .error ("IAM discovery failed: " ++ e)) := by
  refine ⟨?_, ?_, ?_, ?_, ?_, ?_, ?_, ?_, ?_⟩
  · intro e h; simp [discoverIAMResources, h]
  · intro nm arn e h1 h2; simp [discoverIAMResources, h1, h2]
  · intro nm arn tags e h1 h2 h3; simp [discoverIAMResources, h1, h2, h3]
  · intro nm arn tags pols e h1 h2 h3 h4
    by_cases hc : ManagedPolicyARN ∈ pols <;>
      simp [discoverIAMResources, h1, h2, h3, h4, hc]
  · intro e h; simp [discoverLambdaResources, h]
  · intro nm arn e h1 h2; simp [discoverLambdaResources, h1, h2]
  · intro nm arn tags e h1 h2 h3; simp [discoverLambdaResources, h1, h2, h3]
  · intro e h; simp [discoverLogsResources, h]
  · intro e h1 h2; simp [AutodiscoverInfrastructure, h1, h2]

/-- Witness for C4 (amended): on the denied discovery api the role lookup
error is swallowed, and a failing tag listing after a successful role
lookup aborts discovery. -/
theorem discovery_error_handling_witness :
    discoverIAMResources deniedDiscoveryApi.iam emptyState = .ok emptyState ∧
    discoverIAMResources throttledDiscoveryApi.iam emptyState =
      .error "failed to list role tags: throttled" := by
  constructor
  · exact (discovery_error_handling deniedDiscoveryApi emptyState).1
      permissionDeniedMsg rfl
  · exact (discovery_error_handling throttledDiscoveryApi emptyState).2.1
      "tailscale-exits-lambda-role" "arn-role" "throttled" rfl rfl

/-- C8: the delayed VPC cleanup first re-lists the tagged instances and
deletes nothing while any instance is running or pending; only when no such
instance remains does it attempt deletion of every discovered
Project/Type-tagged VPC stack (and a listing failure also deletes nothing). -/
theorem vpc_cleanup_blocked_by_live_instances
    (instances : List InstanceInfo) (vpcs : List String) (e : String) :
    (cleanupVPCInfrastructure (.error e) (.ok vpcs) = (.error e, []))
  ∧ ((∃ i ∈ instances, isBlockingInstance i = true) →
       ∀ vr, cleanupVPCInfrastructure (.ok instances) vr = (.ok (), []))
  ∧ ((∀ i ∈ instances, isBlockingInstance i = false) →
       cleanupVPCInfrastructure (.ok instances) (.ok vpcs) = (.ok (), vpcs))
  ∧ ((∀ i ∈ instances, isBlockingInstance i = false) →
       cleanupVPCInfrastructure (.ok instances) (.error e) =
         (.error ("failed to find TSE VPCs: " ++ e), []))
  ∧ (∀ i, isBlockingInstance i = (i.state = "running" || i.state = "pending")) := by
  refine ⟨rfl, ?_, ?_, ?_, fun i => rfl⟩
  · intro h vr
    have hany : instances.any isBlockingInstance = true := by
      obtain ⟨i, hi, hb⟩ := h
      exact List.any_eq_true.mpr ⟨i, hi, hb⟩
    simp [cleanupVPCInfrastructure, hany]
  · intro h
    have hany : instances.any isBlockingInstance = false := by
      simp only [List.any_eq_false]
      intro i hi
      simp [h i hi]
    simp [cleanupVPCInfrastructure, hany]
  · intro h
    have hany : instances.any isBlockingInstance = false := by
      simp only [List.any_eq_false]
      intro i hi
      simp [h i hi]
    simp [cleanupVPCInfrastructure, hany]

/-- Witness for C8: one running instance blocks deletion of a discovered
VPC; once only a stopped instance remains, the VPC deletion is attempted. -/
theorem vpc_cleanup_blocked_by_live_instances_witness :
    cleanupVPCInfrastructure (.ok [⟨"i-1", "running"⟩]) (.ok ["vpc-1"]) = (.ok (), [])
  ∧ cleanupVPCInfrastructure (.ok [⟨"i-1", "stopped"⟩]) (.ok ["vpc-1"]) =
      (.ok (), ["vpc-1"]) := by
  obtain ⟨-, h2, h3, -, -⟩ :=
    vpc_cleanup_blocked_by_live_instances [(⟨"i-1", "running"⟩ : InstanceInfo)]
      ["vpc-1"] "unused"
  refine ⟨h2 ⟨⟨"i-1", "running"⟩, by decide, by decide⟩ (.ok ["vpc-1"]), ?_⟩
  obtain ⟨-, -, h3', -, -⟩ :=
    vpc_cleanup_blocked_by_live_instances [(⟨"i-1", "stopped"⟩ : InstanceInfo)]
      ["vpc-1"] "unused"
  exact h3' (by decide)

/-- C10: `StopInstances` terminates exactly the discovered instances whose
state is running, pending or stopped and returns their IDs, issuing no
terminate call when none match; the cleanup guard blocks only on running or
pending, so a stopped instance is selected for termination but does not by
itself prevent VPC deletion. -/
theorem stop_instances_selection (instances : List InstanceInfo)
    (vpcs : List String) :
    (StopInstances (.ok instances) (.ok ()) =
       (.ok (terminateIDs instances), !(terminateIDs instances).isEmpty))
  ∧ (terminateIDs instances =
       (instances.filter (fun i =>
          i.state = "running" || i.state = "pending" || i.state = "stopped")).map
         (fun i => i.instanceID))
  ∧ (∀ id, shouldTerminate ⟨id, "stopped"⟩ = true ∧
       isBlockingInstance ⟨id, "stopped"⟩ = false)
  ∧ ((∀ i ∈ instances, i.state = "stopped") →
       cleanupVPCInfrastructure (.ok instances) (.ok vpcs) = (.ok (), vpcs)) := by
  refine ⟨?_, rfl, fun id => ⟨by simp [shouldTerminate], by simp [isBlockingInstance]⟩, ?_⟩
  · cases hinst : instances.isEmpty
    · cases hids : (terminateIDs instances).isEmpty
      · simp [StopInstances, hinst, hids]
      · simp [StopInstances, hinst, hids, List.isEmpty_iff.mp hids]
    · have : terminateIDs instances = [] := by
        simp [terminateIDs, List.isEmpty_iff.mp hinst]
      simp [StopInstances, hinst, this]
  · intro h
    have hany : instances.any isBlockingInstance = false := by
      simp only [List.any_eq_false]
      intro i hi
      simp [isBlockingInstance, h i hi]
    simp [cleanupVPCInfrastructure, hany]

/-- Witness for C10: one stopped instance is selected for termination, and
its presence alone does not prevent the VPC deletion attempt. -/
theorem stop_instances_selection_witness :
    StopInstances (.ok [⟨"i-2", "stopped"⟩]) (.ok ()) = (.ok ["i-2"], true)
  ∧ cleanupVPCInfrastructure (.ok [⟨"i-2", "stopped"⟩]) (.ok ["vpc-9"]) =
      (.ok (), ["vpc-9"]) := by
  obtain ⟨h1, -, -, h4⟩ :=
    stop_instances_selection [(⟨"i-2", "stopped"⟩ : InstanceInfo)] ["vpc-9"]
  exact ⟨h1, h4 (by decide)⟩

/-- Witness for C5: the empty state is missing all six labels in canonical
order and the complete demo state is missing none. -/
theorem missing_labels_canonical_witness :
    emptyState.Missing = canonicalMissingLabels ∧
    completeDemoState.Missing = [] :=
  ⟨(missing_labels_canonical emptyState).2.2.1,
   (missing_labels_canonical completeDemoState).2.2.2.mp (by decide)⟩
